import Mathlib

/-!
# Asynchronous work bridge (`src/napi/node_api_async.c`)

A shallow embedding of the N-API asynchronous work functions and of the three
worker-pool trampolines, followed by theorems about them.

Conventions of the embedding:

* pointers, function pointers, `napi_value`s and `jerry_value_t`s are natural
  numbers, `0` being `NULL`;
* the memory touched by the file is an explicit state `Mem`; every call the
  file makes to a collaborator (scheduler, engine, allocator, user callback)
  is appended to a log, in program order, so that "exactly once", "before"
  and "never" are statements about that log;
* a handle (`napi_async_work`) is the address of the scheduler record embedded
  in a work item; it is identified with the address of the block of that
  item, the offset of the field inside the block not being modelled;
* collaborators that live outside the file are the fields of `Deps`.
-/

namespace NodeApiAsync

/-- Status codes returned by the host API surface. -/
inductive napi_status where
  | napi_ok
  | napi_invalid_arg
  | napi_generic_failure
  | napi_pending_exception
  deriving DecidableEq, Repr

open napi_status

/-- The three static worker-pool callbacks defined by the file. -/
inductive Trampoline where
  | on_work
  | on_work_done
  | on_work_close
  deriving DecidableEq, Repr

/-- The scheduler record embedded in a work item: only its `data` field is
used by the file. -/
structure rtev_worker_t where
  data : Nat
  deriving DecidableEq, Repr

/-- The work item record, with the fields the file assigns in
`napi_create_async_work`. -/
structure rtnode_async_work_t where
  env : Nat
  async_resource : Nat
  async_resource_name : Nat
  execute : Nat
  complete : Nat
  data : Nat
  work_req : rtev_worker_t
  deriving DecidableEq, Repr

/-- The async context record, with the fields the file assigns in
`napi_async_init`. -/
structure rtnode_async_context_t where
  env : Nat
  async_resource : Nat
  async_resource_name : Nat
  deriving DecidableEq, Repr

/-- A typed heap: the block at address `a + 1` is the entry at index `a`;
a freed block is `none`. Address `0` is `NULL`. -/
abbrev Heap (α : Type) := List (Option α)

/-- Read the block at an address; `none` for `NULL`, for an address never
allocated and for a freed block. -/
def load {α : Type} (h : Heap α) (a : Nat) : Option α :=
  if a = 0 then none else (h.get? (a - 1)).join

/-- Overwrite the block at an address. -/
def store {α : Type} (h : Heap α) (a : Nat) (v : α) : Heap α :=
  if a = 0 then h else h.set (a - 1) (some v)

/-- Modelled from the spec: the allocator `rtnode_malloc` is not part of the
file; the spec only says that creation "allocates a Work Item". It is
modelled as returning a block at an address that was never used before,
holding the given initial (indeterminate) contents. -/
def rtnode_malloc {α : Type} (h : Heap α) (init : α) : Nat × Heap α :=
  (h.length + 1, h ++ [some init])

/-- Modelled from the spec: `rtnode_free` is not part of the file; it
releases the block at the address, and is a no-op on `NULL`. -/
def rtnode_free {α : Type} (h : Heap α) (a : Nat) : Heap α :=
  if a = 0 then h else h.set (a - 1) none

/-- The state the file reads and writes: the two typed heaps, the caller
memory the output pointers point into, the two exception slots of each
environment, and the state of the external scheduler. -/
structure Mem (S : Type) where
  works : Heap rtnode_async_work_t
  contexts : Heap rtnode_async_context_t
  slots : Nat → Nat
  pending_exception : Nat → Nat
  pending_fatal_exception : Nat → Nat
  sched : S

/-- One call made by the file to a collaborator. -/
inductive Event where
  | malloc_work (ptr : Nat)
  | malloc_context (ptr : Nat)
  | free_watcher (ptr : Nat)
  | free_context (ptr : Nat)
  | worker_start (ctx req : Nat) (work done close : Trampoline)
  | watcher_close (req : Nat)
  | user_execute (fn env data : Nat)
  | open_handle_scope
  | user_complete (fn env : Nat) (status : napi_status) (data : Nat)
  | close_handle_scope
  | on_fatal_error (jval arg : Nat)
  | release_value (jval : Nat)
  | run_next_tick
  | call_function (env recv func argc : Nat) (argv : List Nat) (result : Nat)
  deriving DecidableEq, Repr

/-- Memory together with the log of collaborator calls. -/
structure World (S : Type) where
  mem : Mem S
  log : List Event

/-- Append one call to the log. -/
def World.emit {S : Type} (w : World S) (e : Event) : World S :=
  { w with log := w.log ++ [e] }

/-- Let a collaborator act on the memory. -/
def World.onMem {S : Type} (w : World S) (f : Mem S → Mem S) : World S :=
  { w with mem := f w.mem }

/-- What a host API function hands back: the status and the message recorded
with it. -/
structure Ret where
  status : napi_status
  msg : Option String
  deriving DecidableEq, Repr

/-- The collaborators of the file, none of which is defined in it.

* `env_ok`, `env_fail`: the check done by `NAPI_TRY_ENV` and what the function
  returns when the check rejects the environment;
* `strerror`: the platform error string of a code;
* `rtev_ctx`: `rtnode_get_context()->rtev`;
* `rtev_worker_start`, `rtev_watcher_close`: the scheduler primitives, which
  return an `int` and may change any part of the memory (a close may run the
  close trampoline synchronously);
* `execute`, `complete`: what calling through a user function pointer does;
* `jerry_get_value_from_error`, `rtnode_on_fatal_error`,
  `rtnode_run_next_tick`, `napi_call_function`: the engine entry points. -/
structure Deps (S : Type) where
  env_ok : Mem S → Nat → Bool
  env_fail : Ret
  strerror : Int → String
  rtev_ctx : Mem S → Nat
  rtev_worker_start :
    Nat → Nat → Trampoline → Trampoline → Trampoline → Mem S → Int × Mem S
  rtev_watcher_close : Nat → Mem S → Int × Mem S
  execute : Nat → Nat → Nat → Mem S → Mem S
  complete : Nat → Nat → napi_status → Nat → Mem S → Mem S
  jerry_get_value_from_error : Nat → Bool → Nat
  rtnode_on_fatal_error : Nat → Nat → Mem S → Mem S
  rtnode_run_next_tick : Mem S → Mem S
  napi_call_function :
    Nat → Nat → Nat → Nat → List Nat → Nat → Mem S → napi_status × Mem S

/-- Modelled from the spec: `NAPI_RETURN_WITH_MSG` is declared in a header
that is not part of the file; per the spec an operation returns a status and
"generic-failure carries a human-readable message". -/
def NAPI_RETURN_WITH_MSG (status : napi_status) (message : String) : Ret :=
  ⟨status, some message⟩

/-- Modelled from the spec: `NAPI_RETURN` returns the status with no message. -/
def NAPI_RETURN (status : napi_status) : Ret :=
  ⟨status, none⟩

/-- Modelled from the spec: `NAPI_ASSIGN(result, value)` stores the value
through the output pointer. -/
def NAPI_ASSIGN {S : Type} (m : Mem S) (result value : Nat) : Mem S :=
  if result = 0 then m else { m with slots := Function.update m.slots result value }

/-- Modelled from the spec: the exception-pending query of the engine, which
is declared outside the file. The completion trampoline falls back to the
fatal slot when the catchable one is empty, so the query reports either. -/
def rtnode_napi_is_exception_pending {S : Type} (m : Mem S) (env : Nat) : Bool :=
  !(m.pending_exception env == 0 && m.pending_fatal_exception env == 0)

/-- Modelled from the spec: get-and-clear of the catchable exception. -/
def rtnode_napi_env_get_and_clear_exception {S : Type} (m : Mem S) (env : Nat) :
    Nat × Mem S :=
  (m.pending_exception env,
    { m with pending_exception := Function.update m.pending_exception env 0 })

/-- Modelled from the spec: get-and-clear of the fatal exception. -/
def rtnode_napi_env_get_and_clear_fatal_exception {S : Type} (m : Mem S) (env : Nat) :
    Nat × Mem S :=
  (m.pending_fatal_exception env,
    { m with pending_fatal_exception := Function.update m.pending_fatal_exception env 0 })

/-- The execute trampoline `on_work`. The result is `none` when `req` is not
a live scheduler record or the item it names is not live. -/
def on_work {S : Type} (X : Deps S) (req : Nat) (w : World S) : Option (World S) :=
  match load w.mem.works req with
  | none => none
  | some r =>
    let async_work := r.work_req.data
    if async_work = 0 then some w
    else
      match load w.mem.works async_work with
      | none => none
      | some aw =>
        if aw.execute ≠ 0 then
          some ((w.emit (Event.user_execute aw.execute aw.env aw.data)).onMem
            (X.execute aw.execute aw.env aw.data))
        else some w

/-- The part of `on_work_done` that follows `jerryx_close_handle_scope`: the
exception check and the routing to the fatal-error handler. -/
def on_work_done_exception {S : Type} (X : Deps S) (env : Nat) (w : World S) : World S :=
  if rtnode_napi_is_exception_pending w.mem env then
    let r1 := rtnode_napi_env_get_and_clear_exception w.mem env
    let r2 :=
      if r1.1 = 0 then rtnode_napi_env_get_and_clear_fatal_exception r1.2 env
      else r1
    let jval_err := r2.1
    let w1 : World S := { w with mem := r2.2 }
    let v := X.jerry_get_value_from_error jval_err false
    let w2 := (w1.emit (Event.on_fatal_error v 0)).onMem (X.rtnode_on_fatal_error v 0)
    w2.emit (Event.release_value jval_err)
  else w

/-- The completion trampoline `on_work_done`. The result is `none` when
`req` is not a live scheduler record, when the assertion
`async_work != NULL` fails, or when the item is not live. -/
def on_work_done {S : Type} (X : Deps S) (req : Nat) (w : World S) : Option (World S) :=
  match load w.mem.works req with
  | none => none
  | some r =>
    let async_work := r.work_req.data
    if async_work = 0 then none
    else
      match load w.mem.works async_work with
      | none => none
      | some aw =>
        let cb_status := napi_ok
        let env := aw.env
        let complete := aw.complete
        let data := aw.data
        let w1 :=
          if complete ≠ 0 then
            let wa := w.emit Event.open_handle_scope
            let wb := (wa.emit (Event.user_complete complete env cb_status data)).onMem
              (X.complete complete env cb_status data)
            let wc := wb.emit Event.close_handle_scope
            on_work_done_exception X env wc
          else w
        some ((w1.emit Event.run_next_tick).onMem X.rtnode_run_next_tick)

/-- The effect of `rtnode_free` on a pointer into the work item heap. -/
def free_work {S : Type} (ptr : Nat) (m : Mem S) : Mem S :=
  { m with works := rtnode_free m.works ptr }

/-- The effect of `rtnode_free` on a pointer into the async context heap. -/
def free_context {S : Type} (ptr : Nat) (m : Mem S) : Mem S :=
  { m with contexts := rtnode_free m.contexts ptr }

/-- The close trampoline `on_work_close`. -/
def on_work_close {S : Type} (worker : Nat) (w : World S) : World S :=
  (w.emit (Event.free_watcher worker)).onMem (free_work worker)

/-- The field assignments of `napi_create_async_work` on the fresh block. -/
def init_async_work (async_work env async_resource async_resource_name execute complete
    data : Nat) (blank : rtnode_async_work_t) : rtnode_async_work_t :=
  let a1 := { blank with env := env }
  let a2 := { a1 with async_resource := async_resource }
  let a3 := { a2 with async_resource_name := async_resource_name }
  let a4 := { a3 with execute := execute }
  let a5 := { a4 with complete := complete }
  let a6 := { a5 with data := data }
  { a6 with work_req := { a6.work_req with data := async_work } }

/-- The contents of a block just returned by the allocator (indeterminate in
C; every field is overwritten before use). -/
def blank_async_work : rtnode_async_work_t :=
  ⟨0, 0, 0, 0, 0, 0, ⟨0⟩⟩

/-- The function `napi_create_async_work`. The handle stored through `result`
is the address of the embedded scheduler record, which identifies the block
of the work item. -/
def napi_create_async_work {S : Type} (X : Deps S)
    (env async_resource async_resource_name execute complete data result : Nat)
    (w : World S) : Ret × World S :=
  if X.env_ok w.mem env = false then (X.env_fail, w)
  else if result = 0 then (NAPI_RETURN napi_invalid_arg, w)
  else if execute = 0 then (NAPI_RETURN napi_invalid_arg, w)
  else if complete = 0 then (NAPI_RETURN napi_invalid_arg, w)
  else
    let a := rtnode_malloc w.mem.works blank_async_work
    let async_work := a.1
    let work_req := async_work
    let w1 : World S :=
      { mem := { w.mem with works := a.2 }, log := w.log ++ [Event.malloc_work async_work] }
    let item := init_async_work async_work env async_resource async_resource_name
      execute complete data blank_async_work
    let w2 := w1.onMem (fun m => { m with works := store m.works async_work item })
    let w3 := w2.onMem (fun m => NAPI_ASSIGN m result work_req)
    (NAPI_RETURN napi_ok, w3)

/-- The function `napi_cancel_async_work`. -/
def napi_cancel_async_work {S : Type} (X : Deps S) (env work : Nat) (w : World S) :
    Ret × World S :=
  if X.env_ok w.mem env = false then (X.env_fail, w)
  else
    let work_req := work
    let r := X.rtev_watcher_close work_req w.mem
    let status := r.1
    let w1 : World S := { mem := r.2, log := w.log ++ [Event.watcher_close work_req] }
    if status ≠ 0 then
      let err_name := X.strerror status
      (NAPI_RETURN_WITH_MSG napi_generic_failure err_name, w1)
    else (NAPI_RETURN napi_ok, w1)

/-- The function `napi_delete_async_work`. -/
def napi_delete_async_work {S : Type} (X : Deps S) (env work : Nat) (w : World S) :
    Ret × World S :=
  napi_cancel_async_work X env work w

/-- The function `napi_queue_async_work`. -/
def napi_queue_async_work {S : Type} (X : Deps S) (env work : Nat) (w : World S) :
    Ret × World S :=
  if X.env_ok w.mem env = false then (X.env_fail, w)
  else
    let ctx := X.rtev_ctx w.mem
    let work_req := work
    let r := X.rtev_worker_start ctx work_req
      Trampoline.on_work Trampoline.on_work_done Trampoline.on_work_close w.mem
    let status := r.1
    let w1 : World S :=
      { mem := r.2,
        log := w.log ++ [Event.worker_start ctx work_req
          Trampoline.on_work Trampoline.on_work_done Trampoline.on_work_close] }
    if status ≠ 0 then
      let err_name := X.strerror status
      (NAPI_RETURN_WITH_MSG napi_generic_failure err_name, w1)
    else (NAPI_RETURN napi_ok, w1)

/-- The function `napi_async_init`. -/
def napi_async_init {S : Type} (X : Deps S)
    (env async_resource async_resource_name result : Nat) (w : World S) :
    Ret × World S :=
  if X.env_ok w.mem env = false then (X.env_fail, w)
  else
    let a := rtnode_malloc w.mem.contexts
      (⟨env, async_resource, async_resource_name⟩ : rtnode_async_context_t)
    let w1 : World S :=
      { mem := { w.mem with contexts := a.2 }, log := w.log ++ [Event.malloc_context a.1] }
    (⟨napi_ok, none⟩, w1.onMem (fun m => NAPI_ASSIGN m result a.1))

/-- The function `napi_async_destroy`. -/
def napi_async_destroy {S : Type} (X : Deps S) (env async_context : Nat) (w : World S) :
    Ret × World S :=
  if X.env_ok w.mem env = false then (X.env_fail, w)
  else
    let ctx := async_context
    (⟨napi_ok, none⟩,
      (w.emit (Event.free_context ctx)).onMem (free_context ctx))

/-- The function `napi_make_callback`. The status handed back on the normal
path is the one of `napi_call_function`, returned bare. -/
def napi_make_callback {S : Type} (X : Deps S)
    (env async_context recv func argc : Nat) (argv : List Nat) (result : Nat)
    (w : World S) : Ret × World S :=
  if X.env_ok w.mem env = false then (X.env_fail, w)
  else
    let r := X.napi_call_function env recv func argc argv result w.mem
    let status := r.1
    let w1 : World S :=
      { mem := r.2, log := w.log ++ [Event.call_function env recv func argc argv result] }
    if rtnode_napi_is_exception_pending w1.mem env = false then
      (⟨status, none⟩, (w1.emit Event.run_next_tick).onMem X.rtnode_run_next_tick)
    else
      (⟨status, none⟩,
        (w1.emit (Event.free_context async_context)).onMem (free_context async_context))

/-! ## Test doubles

A concrete scheduler and engine on which the theorems below are exercised.
The scheduler state is the list of records already closed. -/

/-- Test double: environment `1` is the current one; the pool rejects a
start on record `9` with code `11`; a first close of a record succeeds and
runs the close hook at once, a second close of it fails with code `22`;
completion function `2` raises its payload as a catchable exception,
completion function `3` raises it as a fatal one; calling function `0`
raises value `5`. -/
def testDeps : Deps (List Nat) where
  env_ok := fun _ env => env == 1
  env_fail := ⟨napi_invalid_arg, some "env mismatch"⟩
  strerror := fun n => if n = 11 then "Resource temporarily unavailable" else "Invalid argument"
  rtev_ctx := fun _ => 7
  rtev_worker_start := fun _ req _ _ _ m => if req = 9 then (11, m) else (0, m)
  rtev_watcher_close := fun req m =>
    if req ∈ m.sched then (22, m)
    else (0, free_work req { m with sched := req :: m.sched })
  execute := fun _ _ _ m => m
  complete := fun fn env _ data m =>
    if fn = 2 then { m with pending_exception := Function.update m.pending_exception env data }
    else if fn = 3 then
      { m with pending_fatal_exception := Function.update m.pending_fatal_exception env data }
    else m
  jerry_get_value_from_error := fun v _ => v + 100
  rtnode_on_fatal_error := fun _ _ m => m
  rtnode_run_next_tick := fun m => m
  napi_call_function := fun env _ func _ _ _ m =>
    if func = 0 then
      (napi_pending_exception,
        { m with pending_exception := Function.update m.pending_exception env 5 })
    else (napi_ok, m)

/-- Test double: the empty world. -/
def testWorld : World (List Nat) :=
  ⟨⟨[], [], fun _ => 0, fun _ => 0, fun _ => 0, []⟩, []⟩

/-- Test double: the world after creating, in the empty world, a work item
whose completion function raises its payload `42` as a catchable exception;
its handle is `1`. -/
def catchableWorld : World (List Nat) :=
  (napi_create_async_work testDeps 1 10 11 4 2 42 3 testWorld).2

/-- Test double: the world after creating, in the empty world, a work item
whose completion function raises its payload `42` as a fatal exception; its
handle is `1`. -/
def fatalWorld : World (List Nat) :=
  (napi_create_async_work testDeps 1 10 11 4 3 42 3 testWorld).2

/-- Test double: the world after initialising, in the empty world, an async
context; its handle is `1`. -/
def contextWorld : World (List Nat) :=
  (napi_async_init testDeps 1 10 11 3 testWorld).2

/-- Test double: the world after creating, in the empty world, a work item
whose completion function raises nothing; its handle is `1`. -/
def quietWorld : World (List Nat) :=
  (napi_create_async_work testDeps 1 10 11 4 5 42 3 testWorld).2

/-! ## Heap lemmas -/

theorem load_zero {α : Type} (h : Heap α) : load h 0 = none := by
  simp [load]

theorem load_fresh_none {α : Type} (h : Heap α) : load h (h.length + 1) = none := by
  simp [load]

theorem load_store_fresh {α : Type} (h : Heap α) (b v : α) :
    load (store (h ++ [some b]) (h.length + 1) v) (h.length + 1) = some v := by
  simp [load, store]

theorem load_store_other {α : Type} (h : Heap α) (b v : α) (a : Nat)
    (ha : a ≠ h.length + 1) :
    load (store (h ++ [some b]) (h.length + 1) v) a = load h a := by
  unfold load store
  by_cases h0 : a = 0
  · simp [h0]
  · have hne : h.length ≠ a - 1 := by omega
    simp only [h0, if_false, Nat.add_sub_cancel, Nat.succ_ne_zero]
    rw [List.get?_eq_getElem?, List.get?_eq_getElem?, List.getElem?_set_ne hne]
    by_cases hlt : a - 1 < h.length
    · rw [List.getElem?_append_left hlt]
    · have h1 : h.length < a - 1 := by omega
      rw [List.getElem?_eq_none (by simp; omega), List.getElem?_eq_none (by omega)]

/-! ## Work item creation -/

/-- C1: for an environment accepted by the environment check, when the
execute function, the completion function or the output slot is null,
`napi_create_async_work` returns `napi_invalid_arg` and leaves the whole
world as it was: nothing is allocated (heap and log unchanged) and the
output slot is not written. -/
theorem napi_create_async_work_null_argument {S : Type} (X : Deps S) (w : World S)
    (env async_resource async_resource_name execute complete data result : Nat)
    (henv : X.env_ok w.mem env = true)
    (hnull : execute = 0 ∨ complete = 0 ∨ result = 0) :
    (napi_create_async_work X env async_resource async_resource_name execute complete
        data result w).1.status = napi_invalid_arg ∧
    (napi_create_async_work X env async_resource async_resource_name execute complete
        data result w).2 = w := by
  unfold napi_create_async_work
  rw [if_neg (by simp [henv])]
  by_cases hr : result = 0
  · simp [hr, NAPI_RETURN]
  · by_cases he : execute = 0
    · simp [hr, he, NAPI_RETURN]
    · have hc : complete = 0 := by
        rcases hnull with h | h | h
        · exact absurd h he
        · exact h
        · exact absurd h hr
      simp [hr, he, hc, NAPI_RETURN]

/-- Witness for C1: a null completion function, in the empty test world. -/
theorem napi_create_async_work_null_argument_witness :
    (napi_create_async_work testDeps 1 10 11 4 0 42 3 testWorld).1.status
      = napi_invalid_arg ∧
    (napi_create_async_work testDeps 1 10 11 4 0 42 3 testWorld).2 = testWorld :=
  napi_create_async_work_null_argument testDeps testWorld 1 10 11 4 0 42 3
    (by decide) (by decide)

/-- The world built by `napi_create_async_work` on its success path. -/
theorem napi_create_async_work_eq {S : Type} (X : Deps S) (w : World S)
    (env async_resource async_resource_name execute complete data result : Nat)
    (henv : X.env_ok w.mem env = true)
    (hexec : execute ≠ 0) (hcomp : complete ≠ 0) (hres : result ≠ 0) :
    napi_create_async_work X env async_resource async_resource_name execute complete
        data result w =
      (⟨napi_ok, none⟩,
        { mem :=
            { w.mem with
              works := store (w.mem.works ++ [some blank_async_work]) (w.mem.works.length + 1)
                (init_async_work (w.mem.works.length + 1) env async_resource
                  async_resource_name execute complete data blank_async_work)
              slots := Function.update w.mem.slots result (w.mem.works.length + 1) }
          log := w.log ++ [Event.malloc_work (w.mem.works.length + 1)] }) := by
  unfold napi_create_async_work
  rw [if_neg (by simp [henv]), if_neg hres, if_neg hexec, if_neg hcomp]
  simp [World.onMem, NAPI_ASSIGN, rtnode_malloc, hres, NAPI_RETURN]

/-- C2: for an accepted environment and non-null execute function, completion
function and output slot, `napi_create_async_work` returns `napi_ok`, calls
the allocator once, and stores through the output slot a non-null handle
that was not live before and now holds exactly the arguments given, with the
embedded scheduler record pointing back at the item; every other block and
every other part of the memory is untouched, and the execute and completion
functions of the new item are non-null. -/
theorem napi_create_async_work_ok {S : Type} (X : Deps S) (w : World S)
    (env async_resource async_resource_name execute complete data result : Nat)
    (henv : X.env_ok w.mem env = true)
    (hexec : execute ≠ 0) (hcomp : complete ≠ 0) (hres : result ≠ 0) :
    (napi_create_async_work X env async_resource async_resource_name execute complete
        data result w).1 = ⟨napi_ok, none⟩ ∧
    ∃ handle : Nat,
      (napi_create_async_work X env async_resource async_resource_name execute complete
        data result w).2.mem.slots result = handle ∧
      handle ≠ 0 ∧
      load w.mem.works handle = none ∧
      load (napi_create_async_work X env async_resource async_resource_name execute complete
          data result w).2.mem.works handle =
        some ⟨env, async_resource, async_resource_name, execute, complete, data, ⟨handle⟩⟩ ∧
      (∀ item,
        load (napi_create_async_work X env async_resource async_resource_name execute
          complete data result w).2.mem.works handle = some item →
        item.execute ≠ 0 ∧ item.complete ≠ 0 ∧ item.work_req.data = handle) ∧
      (∀ a, a ≠ handle →
        load (napi_create_async_work X env async_resource async_resource_name execute
          complete data result w).2.mem.works a = load w.mem.works a) ∧
      (∀ p, p ≠ result →
        (napi_create_async_work X env async_resource async_resource_name execute
          complete data result w).2.mem.slots p = w.mem.slots p) ∧
      (napi_create_async_work X env async_resource async_resource_name execute complete
        data result w).2.mem.contexts = w.mem.contexts ∧
      (napi_create_async_work X env async_resource async_resource_name execute complete
        data result w).2.mem.pending_exception = w.mem.pending_exception ∧
      (napi_create_async_work X env async_resource async_resource_name execute complete
        data result w).2.mem.pending_fatal_exception = w.mem.pending_fatal_exception ∧
      (napi_create_async_work X env async_resource async_resource_name execute complete
        data result w).2.mem.sched = w.mem.sched ∧
      (napi_create_async_work X env async_resource async_resource_name execute complete
        data result w).2.log = w.log ++ [Event.malloc_work handle] := by
  rw [napi_create_async_work_eq X w env async_resource async_resource_name execute complete
    data result henv hexec hcomp hres]
  have hload : load (store (w.mem.works ++ [some blank_async_work])
      (w.mem.works.length + 1)
      (init_async_work (w.mem.works.length + 1) env async_resource async_resource_name
        execute complete data blank_async_work)) (w.mem.works.length + 1) =
      some ⟨env, async_resource, async_resource_name, execute, complete, data,
        ⟨w.mem.works.length + 1⟩⟩ := by
    rw [load_store_fresh]
    rfl
  refine ⟨rfl, w.mem.works.length + 1, by simp, by simp, load_fresh_none _, hload,
    ?_, ?_, ?_, rfl, rfl, rfl, rfl, rfl⟩
  · intro item hitem
    simp only [hload] at hitem
    cases hitem
    exact ⟨hexec, hcomp, rfl⟩
  · intro a ha
    exact load_store_other _ _ _ a ha
  · intro p hp
    simp [Function.update, hp]

/-- Witness for C2: creation in the empty test world. -/
theorem napi_create_async_work_ok_witness :
    (napi_create_async_work testDeps 1 10 11 4 5 42 3 testWorld).1 = ⟨napi_ok, none⟩ ∧
    ∃ handle : Nat,
      (napi_create_async_work testDeps 1 10 11 4 5 42 3 testWorld).2.mem.slots 3 = handle ∧
      handle ≠ 0 ∧
      load testWorld.mem.works handle = none ∧
      load (napi_create_async_work testDeps 1 10 11 4 5 42 3 testWorld).2.mem.works handle =
        some ⟨1, 10, 11, 4, 5, 42, ⟨handle⟩⟩ ∧
      (∀ item,
        load (napi_create_async_work testDeps 1 10 11 4 5 42 3 testWorld).2.mem.works handle
          = some item →
        item.execute ≠ 0 ∧ item.complete ≠ 0 ∧ item.work_req.data = handle) ∧
      (∀ a, a ≠ handle →
        load (napi_create_async_work testDeps 1 10 11 4 5 42 3 testWorld).2.mem.works a
          = load testWorld.mem.works a) ∧
      (∀ p, p ≠ 3 →
        (napi_create_async_work testDeps 1 10 11 4 5 42 3 testWorld).2.mem.slots p
          = testWorld.mem.slots p) ∧
      (napi_create_async_work testDeps 1 10 11 4 5 42 3 testWorld).2.mem.contexts
        = testWorld.mem.contexts ∧
      (napi_create_async_work testDeps 1 10 11 4 5 42 3 testWorld).2.mem.pending_exception
        = testWorld.mem.pending_exception ∧
      (napi_create_async_work testDeps 1 10 11 4 5 42 3 testWorld).2.mem.pending_fatal_exception
        = testWorld.mem.pending_fatal_exception ∧
      (napi_create_async_work testDeps 1 10 11 4 5 42 3 testWorld).2.mem.sched
        = testWorld.mem.sched ∧
      (napi_create_async_work testDeps 1 10 11 4 5 42 3 testWorld).2.log
        = testWorld.log ++ [Event.malloc_work handle] :=
  napi_create_async_work_ok testDeps testWorld 1 10 11 4 5 42 3
    (by decide) (by decide) (by decide) (by decide)

/-! ## Scheduling, cancellation, deletion -/

/-- C3: for an accepted environment, `napi_queue_async_work` makes exactly one
call, the scheduler start on the given record with the trampolines `on_work`,
`on_work_done` and `on_work_close`, and leaves the memory as the scheduler
left it; it returns `napi_ok` exactly when start returned `0`, and when start
returned a nonzero code it returns `napi_generic_failure` with the platform
error string of that code as message. -/
theorem napi_queue_async_work_spec {S : Type} (X : Deps S) (w : World S) (env work : Nat)
    (henv : X.env_ok w.mem env = true) :
    (napi_queue_async_work X env work w).2.log =
      w.log ++ [Event.worker_start (X.rtev_ctx w.mem) work
        Trampoline.on_work Trampoline.on_work_done Trampoline.on_work_close] ∧
    (napi_queue_async_work X env work w).2.mem =
      (X.rtev_worker_start (X.rtev_ctx w.mem) work
        Trampoline.on_work Trampoline.on_work_done Trampoline.on_work_close w.mem).2 ∧
    ((napi_queue_async_work X env work w).1.status = napi_ok ↔
      (X.rtev_worker_start (X.rtev_ctx w.mem) work
        Trampoline.on_work Trampoline.on_work_done Trampoline.on_work_close w.mem).1 = 0) ∧
    (∀ n : Int, n ≠ 0 →
      (X.rtev_worker_start (X.rtev_ctx w.mem) work
        Trampoline.on_work Trampoline.on_work_done Trampoline.on_work_close w.mem).1 = n →
      (napi_queue_async_work X env work w).1 =
        ⟨napi_generic_failure, some (X.strerror n)⟩) := by
  unfold napi_queue_async_work
  rw [if_neg (by simp [henv])]
  by_cases h0 : (X.rtev_worker_start (X.rtev_ctx w.mem) work
      Trampoline.on_work Trampoline.on_work_done Trampoline.on_work_close w.mem).1 = 0
  · refine ⟨?_, ?_, ?_, ?_⟩
    · simp [h0]
    · simp [h0]
    · simp [h0, NAPI_RETURN]
    · intro n hn hs
      exact absurd (hs ▸ h0) hn
  · refine ⟨?_, ?_, ?_, ?_⟩
    · simp [h0]
    · simp [h0]
    · simp [h0, NAPI_RETURN_WITH_MSG]
    · intro n hn hs
      simp [NAPI_RETURN_WITH_MSG, hs, hn]

/-- Witness for C3: the test pool rejects record `9` with code `11`. -/
theorem napi_queue_async_work_spec_witness :
    (testDeps.rtev_worker_start (testDeps.rtev_ctx testWorld.mem) 9
        Trampoline.on_work Trampoline.on_work_done Trampoline.on_work_close
        testWorld.mem).1 = 11 ∧
    (napi_queue_async_work testDeps 1 9 testWorld).1 =
      ⟨napi_generic_failure, some (testDeps.strerror 11)⟩ :=
  ⟨by decide,
    (napi_queue_async_work_spec testDeps testWorld 1 9 (by decide)).2.2.2 11
      (by decide) (by decide)⟩

/-- C4: for an accepted environment, `napi_cancel_async_work` makes exactly
one call, the scheduler close request on the given record, and leaves the
memory as the scheduler left it; it returns `napi_ok` exactly when the close
request returned `0`, and when the request returned a nonzero code it returns
`napi_generic_failure` with the error string of that code as message. -/
theorem napi_cancel_async_work_spec {S : Type} (X : Deps S) (w : World S) (env work : Nat)
    (henv : X.env_ok w.mem env = true) :
    (napi_cancel_async_work X env work w).2.log = w.log ++ [Event.watcher_close work] ∧
    (napi_cancel_async_work X env work w).2.mem = (X.rtev_watcher_close work w.mem).2 ∧
    ((napi_cancel_async_work X env work w).1.status = napi_ok ↔
      (X.rtev_watcher_close work w.mem).1 = 0) ∧
    (∀ n : Int, n ≠ 0 → (X.rtev_watcher_close work w.mem).1 = n →
      (napi_cancel_async_work X env work w).1 =
        ⟨napi_generic_failure, some (X.strerror n)⟩) := by
  unfold napi_cancel_async_work
  rw [if_neg (by simp [henv])]
  by_cases h0 : (X.rtev_watcher_close work w.mem).1 = 0
  · refine ⟨?_, ?_, ?_, ?_⟩
    · simp [h0]
    · simp [h0]
    · simp [h0, NAPI_RETURN]
    · intro n hn hs
      exact absurd (hs ▸ h0) hn
  · refine ⟨?_, ?_, ?_, ?_⟩
    · simp [h0]
    · simp [h0]
    · simp [h0, NAPI_RETURN_WITH_MSG]
    · intro n hn hs
      simp [NAPI_RETURN_WITH_MSG, hs, hn]

/-- Witness for C4: a second cancel of record `1`, after a first one that
succeeded, fails with the error string of code `22`. -/
theorem napi_cancel_async_work_spec_witness :
    (napi_cancel_async_work testDeps 1 1 testWorld).1.status = napi_ok ∧
    (testDeps.rtev_watcher_close 1 (napi_cancel_async_work testDeps 1 1 testWorld).2.mem).1
      = 22 ∧
    (napi_cancel_async_work testDeps 1 1 (napi_cancel_async_work testDeps 1 1 testWorld).2).1 =
      ⟨napi_generic_failure, some (testDeps.strerror 22)⟩ :=
  ⟨by decide, by decide,
    (napi_cancel_async_work_spec testDeps (napi_cancel_async_work testDeps 1 1 testWorld).2 1 1
      (by decide)).2.2.2 22 (by decide) (by decide)⟩

/-- C5: for every environment, handle and world, `napi_delete_async_work`
gives the same status, the same message and the same world as
`napi_cancel_async_work`; it never calls the deallocator itself: either the
environment is rejected and nothing happens, or its only call is the close
request to the scheduler and the memory is as the scheduler left it. -/
theorem napi_delete_async_work_is_cancel {S : Type} (X : Deps S) (w : World S)
    (env work : Nat) :
    napi_delete_async_work X env work w = napi_cancel_async_work X env work w ∧
    (∀ p, Event.free_watcher p ∉ (napi_delete_async_work X env work w).2.log.drop w.log.length) ∧
    (((napi_delete_async_work X env work w).2.log = w.log ∧
        (napi_delete_async_work X env work w).2.mem = w.mem) ∨
      ((napi_delete_async_work X env work w).2.log = w.log ++ [Event.watcher_close work] ∧
        (napi_delete_async_work X env work w).2.mem = (X.rtev_watcher_close work w.mem).2)) := by
  refine ⟨rfl, ?_, ?_⟩
  · intro p
    unfold napi_delete_async_work napi_cancel_async_work
    by_cases henv : X.env_ok w.mem env = false
    · simp [henv]
    · by_cases h0 : (X.rtev_watcher_close work w.mem).1 = 0 <;> simp [henv, h0]
  · unfold napi_delete_async_work napi_cancel_async_work
    by_cases henv : X.env_ok w.mem env = false
    · simp [henv]
    · by_cases h0 : (X.rtev_watcher_close work w.mem).1 = 0 <;> simp [henv, h0]

/-! ## The completion trampoline -/

/-- The world in which the exception check of `on_work_done` starts: the
handle scope was opened, the user completion function ran on the memory,
the handle scope was closed. -/
theorem on_work_done_eq {S : Type} (X : Deps S) (w : World S) (req : Nat)
    (item : rtnode_async_work_t)
    (hitem : load w.mem.works req = some item)
    (hback : item.work_req.data = req)
    (hcomp : item.complete ≠ 0) :
    on_work_done X req w =
      some (((on_work_done_exception X item.env
        { mem := X.complete item.complete item.env napi_ok item.data w.mem
          log := w.log ++ [Event.open_handle_scope,
            Event.user_complete item.complete item.env napi_ok item.data,
            Event.close_handle_scope] }).emit Event.run_next_tick).onMem
        X.rtnode_run_next_tick) := by
  have hreq : req ≠ 0 := by
    intro h0
    rw [h0, load_zero] at hitem
    cases hitem
  unfold on_work_done
  simp only [hitem, hback, if_neg hreq, ne_eq, hcomp, not_false_eq_true, if_true]
  simp [World.emit, World.onMem]

/-- Nothing pending: the exception check does nothing. -/
theorem on_work_done_exception_none {S : Type} (X : Deps S) (env : Nat) (w : World S)
    (h : rtnode_napi_is_exception_pending w.mem env = false) :
    on_work_done_exception X env w = w := by
  simp [on_work_done_exception, h]

/-- A catchable exception pending: it is taken, cleared, routed and released. -/
theorem on_work_done_exception_catchable {S : Type} (X : Deps S) (env : Nat) (w : World S)
    (h : w.mem.pending_exception env ≠ 0) :
    on_work_done_exception X env w =
      { mem := X.rtnode_on_fatal_error
          (X.jerry_get_value_from_error (w.mem.pending_exception env) false) 0
          (rtnode_napi_env_get_and_clear_exception w.mem env).2
        log := w.log ++
          [Event.on_fatal_error
              (X.jerry_get_value_from_error (w.mem.pending_exception env) false) 0,
            Event.release_value (w.mem.pending_exception env)] } := by
  have hp : rtnode_napi_is_exception_pending w.mem env = true := by
    simp [rtnode_napi_is_exception_pending, h]
  simp [on_work_done_exception, hp, rtnode_napi_env_get_and_clear_exception, h,
    World.emit, World.onMem]

/-- No catchable exception but a fatal one pending: the fatal one is taken,
cleared, routed and released. -/
theorem on_work_done_exception_fatal {S : Type} (X : Deps S) (env : Nat) (w : World S)
    (h : w.mem.pending_exception env = 0) (hf : w.mem.pending_fatal_exception env ≠ 0) :
    on_work_done_exception X env w =
      { mem := X.rtnode_on_fatal_error
          (X.jerry_get_value_from_error (w.mem.pending_fatal_exception env) false) 0
          (rtnode_napi_env_get_and_clear_fatal_exception
            (rtnode_napi_env_get_and_clear_exception w.mem env).2 env).2
        log := w.log ++
          [Event.on_fatal_error
              (X.jerry_get_value_from_error (w.mem.pending_fatal_exception env) false) 0,
            Event.release_value (w.mem.pending_fatal_exception env)] } := by
  have hp : rtnode_napi_is_exception_pending w.mem env = true := by
    simp [rtnode_napi_is_exception_pending, hf]
  simp [on_work_done_exception, hp, rtnode_napi_env_get_and_clear_exception,
    rtnode_napi_env_get_and_clear_fatal_exception, h, World.emit, World.onMem]

/-- The calls made by the exception check: none, or one routing to the
fatal-error handler followed by the release of the routed exception. -/
theorem on_work_done_exception_log {S : Type} (X : Deps S) (env : Nat) (w : World S) :
    (on_work_done_exception X env w).log = w.log ∨
    ∃ v, (on_work_done_exception X env w).log = w.log ++
      [Event.on_fatal_error (X.jerry_get_value_from_error v false) 0,
        Event.release_value v] := by
  by_cases h : w.mem.pending_exception env = 0
  · by_cases hf : w.mem.pending_fatal_exception env = 0
    · left
      rw [on_work_done_exception_none]
      simp [rtnode_napi_is_exception_pending, h, hf]
    · right
      exact ⟨_, by rw [on_work_done_exception_fatal X env w h hf]⟩
  · right
    exact ⟨_, by rw [on_work_done_exception_catchable X env w h]⟩

/-- C6: for a work item as built by creation (live, its scheduler record
pointing back at it, completion function non-null), one run of
`on_work_done` returns, and the calls it makes are: open scope, the user
completion function, close scope, then the calls of the exception check,
then the queue drain. The drain is called exactly once and is the last call,
after the completion function, whatever the exception state. If the
completion function left nothing pending the fatal-error handler is not
called; if it left a catchable exception the handler is called exactly once,
with the underlying value of that exception, before the drain. -/
theorem on_work_done_drain_once {S : Type} (X : Deps S) (w : World S) (req : Nat)
    (item : rtnode_async_work_t)
    (hitem : load w.mem.works req = some item)
    (hback : item.work_req.data = req)
    (hcomp : item.complete ≠ 0) :
    ∃ w2 : World S, ∃ mid : List Event,
      on_work_done X req w = some w2 ∧
      w2.log = w.log ++
        [Event.open_handle_scope,
          Event.user_complete item.complete item.env napi_ok item.data,
          Event.close_handle_scope] ++ mid ++ [Event.run_next_tick] ∧
      Event.run_next_tick ∉ mid ∧
      (w2.log.drop w.log.length).count Event.run_next_tick = 1 ∧
      w2.log.getLast? = some Event.run_next_tick ∧
      (rtnode_napi_is_exception_pending
          (X.complete item.complete item.env napi_ok item.data w.mem) item.env = false →
        mid = []) ∧
      (∀ e, (X.complete item.complete item.env napi_ok item.data w.mem).pending_exception
          item.env = e → e ≠ 0 →
        mid = [Event.on_fatal_error (X.jerry_get_value_from_error e false) 0,
          Event.release_value e]) := by
  rw [on_work_done_eq X w req item hitem hback hcomp]
  by_cases hpe :
      (X.complete item.complete item.env napi_ok item.data w.mem).pending_exception item.env = 0
  · by_cases hpf : (X.complete item.complete item.env napi_ok item.data
        w.mem).pending_fatal_exception item.env = 0
    · refine ⟨_, [], rfl, ?_, by simp, ?_, ?_, fun _ => rfl, ?_⟩
      · rw [on_work_done_exception_none X item.env _
          (by simp [rtnode_napi_is_exception_pending, hpe, hpf])]
        simp [World.emit, World.onMem]
      · rw [on_work_done_exception_none X item.env _
          (by simp [rtnode_napi_is_exception_pending, hpe, hpf])]
        simp [World.emit, World.onMem, List.count_cons]
      · rw [on_work_done_exception_none X item.env _
          (by simp [rtnode_napi_is_exception_pending, hpe, hpf])]
        simp [World.emit, World.onMem]
      · intro e he hne
        exact absurd (he ▸ hpe) hne
    · refine ⟨_, [Event.on_fatal_error (X.jerry_get_value_from_error
          ((X.complete item.complete item.env napi_ok item.data
            w.mem).pending_fatal_exception item.env) false) 0,
          Event.release_value ((X.complete item.complete item.env napi_ok item.data
            w.mem).pending_fatal_exception item.env)], rfl, ?_, by simp, ?_, ?_, ?_, ?_⟩
      · rw [on_work_done_exception_fatal X item.env _ hpe hpf]
        simp [World.emit, World.onMem]
      · rw [on_work_done_exception_fatal X item.env _ hpe hpf]
        simp [World.emit, World.onMem, List.count_cons]
      · rw [on_work_done_exception_fatal X item.env _ hpe hpf]
        simp [World.emit, World.onMem]
      · intro hnp
        simp [rtnode_napi_is_exception_pending, hpf] at hnp
      · intro e he hne
        exact absurd (he ▸ hpe) hne
  · refine ⟨_, [Event.on_fatal_error (X.jerry_get_value_from_error
        ((X.complete item.complete item.env napi_ok item.data
          w.mem).pending_exception item.env) false) 0,
        Event.release_value ((X.complete item.complete item.env napi_ok item.data
          w.mem).pending_exception item.env)], rfl, ?_, by simp, ?_, ?_, ?_, ?_⟩
    · rw [on_work_done_exception_catchable X item.env _ hpe]
      simp [World.emit, World.onMem]
    · rw [on_work_done_exception_catchable X item.env _ hpe]
      simp [World.emit, World.onMem, List.count_cons]
    · rw [on_work_done_exception_catchable X item.env _ hpe]
      simp [World.emit, World.onMem]
    · intro hnp
      simp [rtnode_napi_is_exception_pending, hpe] at hnp
    · intro e he _
      rw [he]

/-- Witness for C6: the completion function of the item raises `42` as a
catchable exception. -/
theorem on_work_done_drain_once_witness :
    ∃ w2 : World (List Nat), ∃ mid : List Event,
      on_work_done testDeps 1 catchableWorld = some w2 ∧
      w2.log = catchableWorld.log ++
        [Event.open_handle_scope, Event.user_complete 2 1 napi_ok 42,
          Event.close_handle_scope] ++ mid ++ [Event.run_next_tick] ∧
      Event.run_next_tick ∉ mid ∧
      (w2.log.drop catchableWorld.log.length).count Event.run_next_tick = 1 ∧
      w2.log.getLast? = some Event.run_next_tick ∧
      (rtnode_napi_is_exception_pending
          (testDeps.complete 2 1 napi_ok 42 catchableWorld.mem) 1 = false →
        mid = []) ∧
      (∀ e, (testDeps.complete 2 1 napi_ok 42 catchableWorld.mem).pending_exception 1 = e →
        e ≠ 0 →
        mid = [Event.on_fatal_error (testDeps.jerry_get_value_from_error e false) 0,
          Event.release_value e]) :=
  on_work_done_drain_once testDeps catchableWorld 1 ⟨1, 10, 11, 4, 2, 42, ⟨1⟩⟩
    (by decide) (by decide) (by decide)

/-- C8: for a work item as built by creation, one run of `on_work_done`
returns and begins with exactly these three calls: open a handle scope, the
user completion function with the environment of the item, the status
`napi_ok` and the payload of the item, close the handle scope. No later call
of the run opens or closes a scope or enters a user completion function, so
the function is called exactly once and the only status it ever receives is
`napi_ok`, whatever the state of the scheduler. -/
theorem on_work_done_complete_once {S : Type} (X : Deps S) (w : World S) (req : Nat)
    (item : rtnode_async_work_t)
    (hitem : load w.mem.works req = some item)
    (hback : item.work_req.data = req)
    (hcomp : item.complete ≠ 0) :
    ∃ w2 : World S, ∃ rest : List Event,
      on_work_done X req w = some w2 ∧
      w2.log = w.log ++
        [Event.open_handle_scope,
          Event.user_complete item.complete item.env napi_ok item.data,
          Event.close_handle_scope] ++ rest ∧
      Event.open_handle_scope ∉ rest ∧
      Event.close_handle_scope ∉ rest ∧
      (∀ fn e st d, Event.user_complete fn e st d ∉ rest) ∧
      (w2.log.drop w.log.length).count
        (Event.user_complete item.complete item.env napi_ok item.data) = 1 ∧
      (∀ fn e st d, Event.user_complete fn e st d ∈ w2.log.drop w.log.length →
        st = napi_ok) := by
  rw [on_work_done_eq X w req item hitem hback hcomp]
  rcases on_work_done_exception_log X item.env
      { mem := X.complete item.complete item.env napi_ok item.data w.mem
        log := w.log ++ [Event.open_handle_scope,
          Event.user_complete item.complete item.env napi_ok item.data,
          Event.close_handle_scope] } with h | ⟨v, h⟩
  · refine ⟨_, [Event.run_next_tick], rfl, ?_, by simp, by simp, by simp, ?_, ?_⟩
    · simp [World.emit, World.onMem, h]
    · simp [World.emit, World.onMem, h, List.count_cons]
    · intro fn e st d hmem
      simp [World.emit, World.onMem, h] at hmem
      exact hmem.2.2.1
  · refine ⟨_, [Event.on_fatal_error (X.jerry_get_value_from_error v false) 0,
        Event.release_value v, Event.run_next_tick], rfl, ?_, by simp, by simp, by simp,
        ?_, ?_⟩
    · simp [World.emit, World.onMem, h]
    · simp [World.emit, World.onMem, h, List.count_cons]
    · intro fn e st d hmem
      simp [World.emit, World.onMem, h] at hmem
      exact hmem.2.2.1

/-- Witness for C8: the item whose completion function raises nothing. -/
theorem on_work_done_complete_once_witness :
    ∃ w2 : World (List Nat), ∃ rest : List Event,
      on_work_done testDeps 1 quietWorld = some w2 ∧
      w2.log = quietWorld.log ++
        [Event.open_handle_scope, Event.user_complete 5 1 napi_ok 42,
          Event.close_handle_scope] ++ rest ∧
      Event.open_handle_scope ∉ rest ∧
      Event.close_handle_scope ∉ rest ∧
      (∀ fn e st d, Event.user_complete fn e st d ∉ rest) ∧
      (w2.log.drop quietWorld.log.length).count (Event.user_complete 5 1 napi_ok 42) = 1 ∧
      (∀ fn e st d, Event.user_complete fn e st d ∈ w2.log.drop quietWorld.log.length →
        st = napi_ok) :=
  on_work_done_complete_once testDeps quietWorld 1 ⟨1, 10, 11, 4, 5, 42, ⟨1⟩⟩
    (by decide) (by decide) (by decide)

/-- C9: for a work item as built by creation, one run of `on_work_done`
returns, and after the completion function the catchable slot is consulted
first and the fatal slot only when the catchable one is empty. When the
completion function left no catchable exception but a fatal one, the fatal
one is taken and its slot cleared, the handler is called with its underlying
value (extracted by `jerry_get_value_from_error`), and the taken value is
released next. When it left a catchable exception, that one is taken,
routed and released, and the fatal slot is not touched. In every case the
calls between the close of the scope and the drain are either none or one
handler call followed by one release. -/
theorem on_work_done_fatal_fallback {S : Type} (X : Deps S) (w : World S) (req : Nat)
    (item : rtnode_async_work_t)
    (hitem : load w.mem.works req = some item)
    (hback : item.work_req.data = req)
    (hcomp : item.complete ≠ 0) :
    ∃ w2 : World S, ∃ mid : List Event,
      on_work_done X req w = some w2 ∧
      w2.log = w.log ++
        [Event.open_handle_scope,
          Event.user_complete item.complete item.env napi_ok item.data,
          Event.close_handle_scope] ++ mid ++ [Event.run_next_tick] ∧
      (mid = [] ∨ ∃ v, mid =
        [Event.on_fatal_error (X.jerry_get_value_from_error v false) 0,
          Event.release_value v]) ∧
      ((X.complete item.complete item.env napi_ok item.data w.mem).pending_exception
          item.env = 0 →
        ∀ f, (X.complete item.complete item.env napi_ok item.data
          w.mem).pending_fatal_exception item.env = f → f ≠ 0 →
        mid = [Event.on_fatal_error (X.jerry_get_value_from_error f false) 0,
          Event.release_value f] ∧
        (rtnode_napi_env_get_and_clear_fatal_exception
          (rtnode_napi_env_get_and_clear_exception
            (X.complete item.complete item.env napi_ok item.data w.mem)
            item.env).2 item.env).2.pending_fatal_exception item.env = 0 ∧
        w2.mem = X.rtnode_run_next_tick
          (X.rtnode_on_fatal_error (X.jerry_get_value_from_error f false) 0
            (rtnode_napi_env_get_and_clear_fatal_exception
              (rtnode_napi_env_get_and_clear_exception
                (X.complete item.complete item.env napi_ok item.data w.mem)
                item.env).2 item.env).2)) ∧
      (∀ e, (X.complete item.complete item.env napi_ok item.data w.mem).pending_exception
          item.env = e → e ≠ 0 →
        mid = [Event.on_fatal_error (X.jerry_get_value_from_error e false) 0,
          Event.release_value e] ∧
        (rtnode_napi_env_get_and_clear_exception
          (X.complete item.complete item.env napi_ok item.data w.mem)
          item.env).2.pending_fatal_exception =
          (X.complete item.complete item.env napi_ok item.data
            w.mem).pending_fatal_exception ∧
        w2.mem = X.rtnode_run_next_tick
          (X.rtnode_on_fatal_error (X.jerry_get_value_from_error e false) 0
            (rtnode_napi_env_get_and_clear_exception
              (X.complete item.complete item.env napi_ok item.data w.mem)
              item.env).2)) := by
  rw [on_work_done_eq X w req item hitem hback hcomp]
  by_cases hpe :
      (X.complete item.complete item.env napi_ok item.data w.mem).pending_exception item.env = 0
  · by_cases hpf : (X.complete item.complete item.env napi_ok item.data
        w.mem).pending_fatal_exception item.env = 0
    · refine ⟨_, [], rfl, ?_, Or.inl rfl, ?_, ?_⟩
      · rw [on_work_done_exception_none X item.env _
          (by simp [rtnode_napi_is_exception_pending, hpe, hpf])]
        simp [World.emit, World.onMem]
      · intro _ f hf hne
        exact absurd (hf ▸ hpf) hne
      · intro e he hne
        exact absurd (he ▸ hpe) hne
    · refine ⟨_, [Event.on_fatal_error (X.jerry_get_value_from_error
          ((X.complete item.complete item.env napi_ok item.data
            w.mem).pending_fatal_exception item.env) false) 0,
          Event.release_value ((X.complete item.complete item.env napi_ok item.data
            w.mem).pending_fatal_exception item.env)], rfl, ?_, Or.inr ⟨_, rfl⟩, ?_, ?_⟩
      · rw [on_work_done_exception_fatal X item.env _ hpe hpf]
        simp [World.emit, World.onMem]
      · intro _ f hf _
        refine ⟨by rw [hf], ?_, ?_⟩
        · simp [rtnode_napi_env_get_and_clear_fatal_exception]
        · rw [on_work_done_exception_fatal X item.env _ hpe hpf, ← hf]
          simp [World.emit, World.onMem]
      · intro e he hne
        exact absurd (he ▸ hpe) hne
  · refine ⟨_, [Event.on_fatal_error (X.jerry_get_value_from_error
        ((X.complete item.complete item.env napi_ok item.data
          w.mem).pending_exception item.env) false) 0,
        Event.release_value ((X.complete item.complete item.env napi_ok item.data
          w.mem).pending_exception item.env)], rfl, ?_, Or.inr ⟨_, rfl⟩, ?_, ?_⟩
    · rw [on_work_done_exception_catchable X item.env _ hpe]
      simp [World.emit, World.onMem]
    · intro h0
      exact absurd h0 hpe
    · intro e he _
      refine ⟨by rw [he], rfl, ?_⟩
      rw [on_work_done_exception_catchable X item.env _ hpe, ← he]
      simp [World.emit, World.onMem]

/-- Witness for C9: the completion function of the item raises `42` as a
fatal exception. -/
theorem on_work_done_fatal_fallback_witness :
    (testDeps.complete 3 1 napi_ok 42 fatalWorld.mem).pending_exception 1 = 0 ∧
    (testDeps.complete 3 1 napi_ok 42 fatalWorld.mem).pending_fatal_exception 1 = 42 ∧
    ∃ w2 : World (List Nat),
      on_work_done testDeps 1 fatalWorld = some w2 ∧
      w2.log = fatalWorld.log ++
        [Event.open_handle_scope, Event.user_complete 3 1 napi_ok 42,
          Event.close_handle_scope,
          Event.on_fatal_error (testDeps.jerry_get_value_from_error 42 false) 0,
          Event.release_value 42, Event.run_next_tick] := by
  refine ⟨by decide, by decide, ?_⟩
  obtain ⟨w2, mid, hrun, hlog, _, hfatal, _⟩ :=
    on_work_done_fatal_fallback testDeps fatalWorld 1 ⟨1, 10, 11, 4, 3, 42, ⟨1⟩⟩
      (by decide) (by decide) (by decide)
  have hmid := (hfatal (by decide) 42 (by decide) (by decide)).1
  refine ⟨w2, hrun, ?_⟩
  rw [hlog, hmid]
  simp

/-! ## Ownership of the work item -/

theorem load_rtnode_free {α : Type} (h : Heap α) (a : Nat) : load (rtnode_free h a) a = none := by
  unfold load rtnode_free
  by_cases h0 : a = 0
  · simp [h0]
  · simp only [h0, if_false]
    rw [List.get?_eq_getElem?, List.getElem?_set]
    by_cases hlt : a - 1 < h.length
    · simp [hlt]
    · simp [hlt]

/-- The exception check of `on_work_done` does not use the completion
behaviour of the collaborators. -/
theorem on_work_done_exception_complete_irrelevant {S : Type} (X : Deps S)
    (cb : Nat → Nat → napi_status → Nat → Mem S → Mem S) (env : Nat) (w : World S) :
    on_work_done_exception { X with complete := cb } env w = on_work_done_exception X env w :=
  rfl

/-- The calls of the exception check depend on the memory only through the
two exception slots of the environment. -/
theorem on_work_done_exception_log_congr {S : Type} (X : Deps S) (env : Nat)
    (m m2 : Mem S) (l : List Event)
    (hpe : m2.pending_exception env = m.pending_exception env)
    (hpf : m2.pending_fatal_exception env = m.pending_fatal_exception env) :
    (on_work_done_exception X env { mem := m2, log := l }).log =
      (on_work_done_exception X env { mem := m, log := l }).log := by
  by_cases h : m.pending_exception env = 0
  · by_cases hf : m.pending_fatal_exception env = 0
    · rw [on_work_done_exception_none X env { mem := m, log := l }
          (by simp [rtnode_napi_is_exception_pending, h, hf]),
        on_work_done_exception_none X env { mem := m2, log := l }
          (by simp [rtnode_napi_is_exception_pending, hpe, hpf, h, hf])]
    · rw [on_work_done_exception_fatal X env { mem := m, log := l } h hf,
        on_work_done_exception_fatal X env { mem := m2, log := l }
          (by rw [hpe]; exact h) (by rw [hpf]; exact hf)]
      simp only [hpf]
  · rw [on_work_done_exception_catchable X env { mem := m, log := l } h,
      on_work_done_exception_catchable X env { mem := m2, log := l }
        (by rw [hpe]; exact h)]
    simp only [hpe]

/-- The calls of `napi_async_init`: none, or one allocation of a context. -/
theorem napi_async_init_log {S : Type} (X : Deps S) (w : World S)
    (env async_resource async_resource_name result : Nat) :
    (napi_async_init X env async_resource async_resource_name result w).2.log = w.log ∨
    (napi_async_init X env async_resource async_resource_name result w).2.log =
      w.log ++ [Event.malloc_context (w.mem.contexts.length + 1)] := by
  unfold napi_async_init
  by_cases henv : X.env_ok w.mem env = false
  · exact Or.inl (by simp [henv])
  · exact Or.inr (by simp [henv, World.onMem, rtnode_malloc])

/-- The calls of `napi_async_destroy`: none, or one deallocation of a
context; the work item heap is not changed. -/
theorem napi_async_destroy_log {S : Type} (X : Deps S) (w : World S)
    (env async_context : Nat) :
    ((napi_async_destroy X env async_context w).2.log = w.log ∨
      (napi_async_destroy X env async_context w).2.log =
        w.log ++ [Event.free_context async_context]) ∧
    (napi_async_destroy X env async_context w).2.mem.works = w.mem.works := by
  unfold napi_async_destroy
  by_cases henv : X.env_ok w.mem env = false
  · exact ⟨Or.inl (by simp [henv]), by simp [henv]⟩
  · exact ⟨Or.inr (by simp [henv, World.onMem, World.emit]),
      by simp [henv, World.onMem, World.emit, free_context]⟩

/-- The calls of `napi_make_callback`: none; or the function call followed
by one drain; or the function call followed by one deallocation of the
context. -/
theorem napi_make_callback_log {S : Type} (X : Deps S) (w : World S)
    (env async_context recv func argc : Nat) (argv : List Nat) (result : Nat) :
    (napi_make_callback X env async_context recv func argc argv result w).2.log = w.log ∨
    (napi_make_callback X env async_context recv func argc argv result w).2.log =
      w.log ++ [Event.call_function env recv func argc argv result, Event.run_next_tick] ∨
    (napi_make_callback X env async_context recv func argc argv result w).2.log =
      w.log ++ [Event.call_function env recv func argc argv result,
        Event.free_context async_context] := by
  unfold napi_make_callback
  by_cases henv : X.env_ok w.mem env = false
  · exact Or.inl (by simp [henv])
  · by_cases hp : rtnode_napi_is_exception_pending
        (X.napi_call_function env recv func argc argv result w.mem).2 env = false
    · exact Or.inr (Or.inl (by simp [henv, hp, World.onMem, World.emit]))
    · exact Or.inr (Or.inr (by simp [henv, hp, World.onMem, World.emit]))

/-- The calls of `napi_create_async_work`: none, or one allocation. -/
theorem napi_create_async_work_log {S : Type} (X : Deps S) (w : World S)
    (env async_resource async_resource_name execute complete data result : Nat) :
    (napi_create_async_work X env async_resource async_resource_name execute complete
        data result w).2.log = w.log ∨
    (napi_create_async_work X env async_resource async_resource_name execute complete
        data result w).2.log = w.log ++ [Event.malloc_work (w.mem.works.length + 1)] := by
  unfold napi_create_async_work
  split_ifs
  · exact Or.inl rfl
  · exact Or.inl rfl
  · exact Or.inl rfl
  · exact Or.inl rfl
  · exact Or.inr rfl

/-- The calls of `napi_queue_async_work`: none, or one scheduler start. -/
theorem napi_queue_async_work_log {S : Type} (X : Deps S) (w : World S) (env work : Nat) :
    (napi_queue_async_work X env work w).2.log = w.log ∨
    (napi_queue_async_work X env work w).2.log =
      w.log ++ [Event.worker_start (X.rtev_ctx w.mem) work
        Trampoline.on_work Trampoline.on_work_done Trampoline.on_work_close] := by
  unfold napi_queue_async_work
  by_cases henv : X.env_ok w.mem env = false
  · exact Or.inl (by simp [henv])
  · by_cases h0 : (X.rtev_worker_start (X.rtev_ctx w.mem) work
        Trampoline.on_work Trampoline.on_work_done Trampoline.on_work_close w.mem).1 = 0
    · exact Or.inr (by simp [henv, h0])
    · exact Or.inr (by simp [henv, h0])

/-- The calls of `napi_cancel_async_work`: none, or one close request. -/
theorem napi_cancel_async_work_log {S : Type} (X : Deps S) (w : World S) (env work : Nat) :
    (napi_cancel_async_work X env work w).2.log = w.log ∨
    (napi_cancel_async_work X env work w).2.log = w.log ++ [Event.watcher_close work] := by
  unfold napi_cancel_async_work
  by_cases henv : X.env_ok w.mem env = false
  · exact Or.inl (by simp [henv])
  · by_cases h0 : (X.rtev_watcher_close work w.mem).1 = 0
    · exact Or.inr (by simp [henv, h0])
    · exact Or.inr (by simp [henv, h0])

/-- The calls of `on_work`: none, or one call of a user execute function. -/
theorem on_work_log {S : Type} (X : Deps S) (w w2 : World S) (req : Nat)
    (h : on_work X req w = some w2) :
    w2.log = w.log ∨ ∃ fn env data, w2.log = w.log ++ [Event.user_execute fn env data] := by
  unfold on_work at h
  cases hreq : load w.mem.works req with
  | none => simp [hreq] at h
  | some r =>
    simp only [hreq] at h
    by_cases h0 : r.work_req.data = 0
    · simp only [h0, if_true, Option.some.injEq] at h
      exact Or.inl (by rw [← h])
    · simp only [h0, if_false] at h
      cases hitem : load w.mem.works r.work_req.data with
      | none => simp [hitem] at h
      | some aw =>
        simp only [hitem] at h
        by_cases hx : aw.execute = 0
        · simp only [hx, ne_eq, not_true_eq_false, if_false, Option.some.injEq] at h
          exact Or.inl (by rw [← h])
        · simp only [ne_eq, hx, not_false_eq_true, if_true, Option.some.injEq] at h
          exact Or.inr ⟨_, _, _, by rw [← h]; rfl⟩

/-- The memory the exception check of `on_work_done` leaves: the one it was
given when nothing is pending; otherwise what the fatal-error handler made
of the memory with the taken slots cleared. -/
theorem on_work_done_exception_mem {S : Type} (X : Deps S) (env : Nat) (m : Mem S)
    (l : List Event) :
    (rtnode_napi_is_exception_pending m env = false →
      (on_work_done_exception X env { mem := m, log := l }).mem = m) ∧
    (∀ e, m.pending_exception env = e → e ≠ 0 →
      (on_work_done_exception X env { mem := m, log := l }).mem =
        X.rtnode_on_fatal_error (X.jerry_get_value_from_error e false) 0
          (rtnode_napi_env_get_and_clear_exception m env).2) ∧
    (m.pending_exception env = 0 → ∀ f, m.pending_fatal_exception env = f → f ≠ 0 →
      (on_work_done_exception X env { mem := m, log := l }).mem =
        X.rtnode_on_fatal_error (X.jerry_get_value_from_error f false) 0
          (rtnode_napi_env_get_and_clear_fatal_exception
            (rtnode_napi_env_get_and_clear_exception m env).2 env).2) := by
  refine ⟨?_, ?_, ?_⟩
  · intro h
    rw [on_work_done_exception_none X env { mem := m, log := l } h]
  · intro e he hne
    rw [on_work_done_exception_catchable X env { mem := m, log := l } (by rw [he]; exact hne)]
    simp only [he]
  · intro h0 f hf hne
    rw [on_work_done_exception_fatal X env { mem := m, log := l } h0 (by rw [hf]; exact hne)]
    simp only [hf]

/-- C10: for a work item as built by creation, `on_work_done` reads the
environment, completion function and payload from the item at entry and
passes those to the completion function; after that call it uses the work
item heap no further. So, for every completion behaviour, the run in which
the completion function ends by freeing the block of its own item returns
like the run in which it does not, makes the same calls with the same
arguments in the same order, and hands the fatal-error handler and the queue
drain the same memory except for that block being freed. More generally the
run returns whatever the completion function does, and its calls are the
same whenever the two exception slots of the environment are left the same,
as a deletion does. The run never calls the deallocator on a scheduler
record, and neither does any other function of the file except the close
trampoline `on_work_close`, which makes exactly that one call and frees the
block; the deallocations of `napi_async_destroy` and `napi_make_callback`
are of an async context and leave the work item heap alone. -/
theorem on_work_done_self_delete {S : Type} (X : Deps S) (w : World S) (req : Nat)
    (item : rtnode_async_work_t)
    (hitem : load w.mem.works req = some item)
    (hback : item.work_req.data = req)
    (hcomp : item.complete ≠ 0) :
    ∃ w2 : World S, ∃ w3 : World S,
      on_work_done X req w = some w2 ∧
      on_work_done
        { X with complete := fun fn env st d m => free_work req (X.complete fn env st d m) }
        req w = some w3 ∧
      w3.log = w2.log ∧
      (∃ rest, w2.log = w.log ++
        [Event.open_handle_scope,
          Event.user_complete item.complete item.env napi_ok item.data] ++ rest) ∧
      (rtnode_napi_is_exception_pending
          (X.complete item.complete item.env napi_ok item.data w.mem) item.env = false →
        w2.mem = X.rtnode_run_next_tick
          (X.complete item.complete item.env napi_ok item.data w.mem) ∧
        w3.mem = X.rtnode_run_next_tick
          (free_work req (X.complete item.complete item.env napi_ok item.data w.mem))) ∧
      (∀ e, (X.complete item.complete item.env napi_ok item.data w.mem).pending_exception
          item.env = e → e ≠ 0 →
        w2.mem = X.rtnode_run_next_tick
          (X.rtnode_on_fatal_error (X.jerry_get_value_from_error e false) 0
            (rtnode_napi_env_get_and_clear_exception
              (X.complete item.complete item.env napi_ok item.data w.mem) item.env).2) ∧
        w3.mem = X.rtnode_run_next_tick
          (X.rtnode_on_fatal_error (X.jerry_get_value_from_error e false) 0
            (free_work req (rtnode_napi_env_get_and_clear_exception
              (X.complete item.complete item.env napi_ok item.data w.mem) item.env).2))) ∧
      ((X.complete item.complete item.env napi_ok item.data w.mem).pending_exception
          item.env = 0 →
        ∀ f, (X.complete item.complete item.env napi_ok item.data
          w.mem).pending_fatal_exception item.env = f → f ≠ 0 →
        w2.mem = X.rtnode_run_next_tick
          (X.rtnode_on_fatal_error (X.jerry_get_value_from_error f false) 0
            (rtnode_napi_env_get_and_clear_fatal_exception
              (rtnode_napi_env_get_and_clear_exception
                (X.complete item.complete item.env napi_ok item.data w.mem)
                item.env).2 item.env).2) ∧
        w3.mem = X.rtnode_run_next_tick
          (X.rtnode_on_fatal_error (X.jerry_get_value_from_error f false) 0
            (free_work req (rtnode_napi_env_get_and_clear_fatal_exception
              (rtnode_napi_env_get_and_clear_exception
                (X.complete item.complete item.env napi_ok item.data w.mem)
                item.env).2 item.env).2))) ∧
      (∀ del : Mem S → Mem S, ∃ w4 : World S,
        on_work_done
          { X with complete := fun fn env st d m => del (X.complete fn env st d m) }
          req w = some w4 ∧
        ((del (X.complete item.complete item.env napi_ok item.data
              w.mem)).pending_exception item.env =
            (X.complete item.complete item.env napi_ok item.data w.mem).pending_exception
              item.env →
          (del (X.complete item.complete item.env napi_ok item.data
              w.mem)).pending_fatal_exception item.env =
            (X.complete item.complete item.env napi_ok item.data
              w.mem).pending_fatal_exception item.env →
          w4.log = w2.log)) ∧
      (∀ p, Event.free_watcher p ∉ w2.log.drop w.log.length) ∧
      (on_work_close req w).log = w.log ++ [Event.free_watcher req] ∧
      (on_work_close req w).mem = free_work req w.mem ∧
      load (on_work_close req w).mem.works req = none ∧
      (∀ env async_resource async_resource_name execute complete data result p,
        Event.free_watcher p ∉
          (napi_create_async_work X env async_resource async_resource_name execute
            complete data result w).2.log.drop w.log.length) ∧
      (∀ env work p,
        Event.free_watcher p ∉ (napi_queue_async_work X env work w).2.log.drop w.log.length) ∧
      (∀ env work p,
        Event.free_watcher p ∉ (napi_cancel_async_work X env work w).2.log.drop w.log.length) ∧
      (∀ env work p,
        Event.free_watcher p ∉ (napi_delete_async_work X env work w).2.log.drop w.log.length) ∧
      (∀ r w5, on_work X r w = some w5 →
        ∀ p, Event.free_watcher p ∉ w5.log.drop w.log.length) ∧
      (∀ env async_resource async_resource_name result p,
        Event.free_watcher p ∉
          (napi_async_init X env async_resource async_resource_name result
            w).2.log.drop w.log.length) ∧
      (∀ env async_context p,
        Event.free_watcher p ∉
          (napi_async_destroy X env async_context w).2.log.drop w.log.length ∧
        (napi_async_destroy X env async_context w).2.mem.works = w.mem.works) ∧
      (∀ env async_context recv func argc argv result p,
        Event.free_watcher p ∉
          (napi_make_callback X env async_context recv func argc argv result
            w).2.log.drop w.log.length) ∧
      (∀ p (m : Mem S), (free_context p m).works = m.works) := by
  have hmem := on_work_done_exception_mem X item.env
    (X.complete item.complete item.env napi_ok item.data w.mem)
    (w.log ++ [Event.open_handle_scope,
      Event.user_complete item.complete item.env napi_ok item.data,
      Event.close_handle_scope])
  have hmemf := on_work_done_exception_mem X item.env
    (free_work req (X.complete item.complete item.env napi_ok item.data w.mem))
    (w.log ++ [Event.open_handle_scope,
      Event.user_complete item.complete item.env napi_ok item.data,
      Event.close_handle_scope])
  refine ⟨_, _, on_work_done_eq X w req item hitem hback hcomp,
    on_work_done_eq _ w req item hitem hback hcomp, ?_, ?_, ?_, ?_, ?_, ?_, ?_, rfl, rfl,
    load_rtnode_free _ _, ?_, ?_, ?_, ?_, ?_, ?_, ?_, ?_, fun _ _ => rfl⟩
  · exact congrArg (fun l => l ++ [Event.run_next_tick])
      (on_work_done_exception_log_congr X item.env
        (X.complete item.complete item.env napi_ok item.data w.mem)
        (free_work req (X.complete item.complete item.env napi_ok item.data w.mem))
        _ rfl rfl)
  · rcases on_work_done_exception_log X item.env
        { mem := X.complete item.complete item.env napi_ok item.data w.mem
          log := w.log ++ [Event.open_handle_scope,
            Event.user_complete item.complete item.env napi_ok item.data,
            Event.close_handle_scope] } with h | ⟨v, h⟩
    · exact ⟨_, by simp [World.emit, World.onMem, h]; rfl⟩
    · exact ⟨_, by simp [World.emit, World.onMem, h]; rfl⟩
  · intro hp
    exact ⟨congrArg X.rtnode_run_next_tick (hmem.1 hp),
      congrArg X.rtnode_run_next_tick (hmemf.1 hp)⟩
  · intro e he hne
    exact ⟨congrArg X.rtnode_run_next_tick (hmem.2.1 e he hne),
      congrArg X.rtnode_run_next_tick (hmemf.2.1 e he hne)⟩
  · intro h0 f hf hne
    exact ⟨congrArg X.rtnode_run_next_tick (hmem.2.2 h0 f hf hne),
      congrArg X.rtnode_run_next_tick (hmemf.2.2 h0 f hf hne)⟩
  · intro del
    refine ⟨_, on_work_done_eq _ w req item hitem hback hcomp, ?_⟩
    intro hpe hpf
    exact congrArg (fun l => l ++ [Event.run_next_tick])
      (on_work_done_exception_log_congr X item.env
        (X.complete item.complete item.env napi_ok item.data w.mem)
        (del (X.complete item.complete item.env napi_ok item.data w.mem))
        _ hpe hpf)
  · intro p
    rcases on_work_done_exception_log X item.env
        { mem := X.complete item.complete item.env napi_ok item.data w.mem
          log := w.log ++ [Event.open_handle_scope,
            Event.user_complete item.complete item.env napi_ok item.data,
            Event.close_handle_scope] } with h | ⟨v, h⟩
    · simp [World.emit, World.onMem, h]
    · simp [World.emit, World.onMem, h]
  · intro env async_resource async_resource_name execute complete data result p
    rcases napi_create_async_work_log X w env async_resource async_resource_name execute
      complete data result with h | h <;> simp [h]
  · intro env work p
    rcases napi_queue_async_work_log X w env work with h | h <;> simp [h]
  · intro env work p
    rcases napi_cancel_async_work_log X w env work with h | h <;> simp [h]
  · intro env work p
    rcases napi_cancel_async_work_log X w env work with h | h <;>
      simp [napi_delete_async_work, h]
  · intro r w5 hrun p
    rcases on_work_log X w w5 r hrun with h | ⟨fn, env, data, h⟩ <;> simp [h]
  · intro env async_resource async_resource_name result p
    rcases napi_async_init_log X w env async_resource async_resource_name result
      with h | h <;> simp [h]
  · intro env async_context p
    refine ⟨?_, (napi_async_destroy_log X w env async_context).2⟩
    rcases (napi_async_destroy_log X w env async_context).1 with h | h <;> simp [h]
  · intro env async_context recv func argc argv result p
    rcases napi_make_callback_log X w env async_context recv func argc argv result
      with h | h | h <;> simp [h]

/-- Witness for C10: in the quiet test world the completion function of
item `1` ends by deleting its own item, once by a bare deallocation and once
through `napi_delete_async_work` (the test scheduler runs the close hook at
once, so the block is gone when the completion function returns). -/
theorem on_work_done_self_delete_witness :
    load quietWorld.mem.works 1 = some ⟨1, 10, 11, 4, 5, 42, ⟨1⟩⟩ ∧
    (napi_delete_async_work testDeps 1 1
      { mem := testDeps.complete 5 1 napi_ok 42 quietWorld.mem, log := [] }).1.status
        = napi_ok ∧
    load (napi_delete_async_work testDeps 1 1
      { mem := testDeps.complete 5 1 napi_ok 42 quietWorld.mem, log := [] }).2.mem.works 1
        = none ∧
    ∃ w2 : World (List Nat), ∃ w3 : World (List Nat), ∃ w4 : World (List Nat),
      on_work_done testDeps 1 quietWorld = some w2 ∧
      on_work_done
        { testDeps with
          complete := fun fn env st d m => free_work 1 (testDeps.complete fn env st d m) }
        1 quietWorld = some w3 ∧
      w3.log = w2.log ∧
      on_work_done
        { testDeps with
          complete := fun fn env st d m =>
            (napi_delete_async_work testDeps 1 1
              { mem := testDeps.complete fn env st d m, log := [] }).2.mem }
        1 quietWorld = some w4 ∧
      w4.log = w2.log := by
  refine ⟨by decide, by decide, by decide, ?_⟩
  obtain ⟨w2, w3, h2, h3, hlog, _, _, _, _, hdel, _⟩ :=
    on_work_done_self_delete testDeps quietWorld 1 ⟨1, 10, 11, 4, 5, 42, ⟨1⟩⟩
      (by decide) (by decide) (by decide)
  obtain ⟨w4, h4, hlog4⟩ := hdel
    (fun m => (napi_delete_async_work testDeps 1 1 { mem := m, log := [] }).2.mem)
  exact ⟨w2, w3, w4, h2, h3, hlog, h4, hlog4 (by decide) (by decide)⟩

/-! ## Synchronous invocation with a context -/

/-- C7, as stated, fails: environment `2` is rejected by the environment
check of the test double, and `napi_make_callback` then returns what the
check dictates without calling the function, so "for every environment the
function is called exactly once" does not hold. -/
theorem napi_make_callback_rejected_env :
    testDeps.env_ok testWorld.mem 2 = false ∧
    (napi_make_callback testDeps 2 1 0 1 0 [] 0 testWorld).1 = testDeps.env_fail ∧
    (napi_make_callback testDeps 2 1 0 1 0 [] 0 testWorld).2.log = [] ∧
    ¬ (∀ (env async_context recv func argc : Nat) (argv : List Nat) (result : Nat),
        ((napi_make_callback testDeps env async_context recv func argc argv result
          testWorld).2.log.drop testWorld.log.length).count
            (Event.call_function env recv func argc argv result) = 1) := by
  refine ⟨by decide, by decide, by decide, ?_⟩
  intro h
  have h2 := h 2 1 0 1 0 [] 0
  revert h2
  decide

/-- C7, amended: for an environment accepted by the environment check,
`napi_make_callback` calls `napi_call_function` exactly once, first, and
returns its status. If no exception is pending in the memory that call left,
the only other call is one queue drain, and the memory is what the drain
made of it (the context is not freed). If an exception is pending, the only
other call is the deallocation of the context, whose block is freed, and
the queue is not drained. -/
theorem napi_make_callback_accepted_env {S : Type} (X : Deps S) (w : World S)
    (env async_context recv func argc : Nat) (argv : List Nat) (result : Nat)
    (henv : X.env_ok w.mem env = true) :
    (napi_make_callback X env async_context recv func argc argv result w).1.status =
      (X.napi_call_function env recv func argc argv result w.mem).1 ∧
    ((napi_make_callback X env async_context recv func argc argv result w).2.log.drop
      w.log.length).count (Event.call_function env recv func argc argv result) = 1 ∧
    (rtnode_napi_is_exception_pending
        (X.napi_call_function env recv func argc argv result w.mem).2 env = false →
      (napi_make_callback X env async_context recv func argc argv result w).2.log =
        w.log ++ [Event.call_function env recv func argc argv result,
          Event.run_next_tick] ∧
      (napi_make_callback X env async_context recv func argc argv result w).2.mem =
        X.rtnode_run_next_tick
          (X.napi_call_function env recv func argc argv result w.mem).2) ∧
    (rtnode_napi_is_exception_pending
        (X.napi_call_function env recv func argc argv result w.mem).2 env = true →
      (napi_make_callback X env async_context recv func argc argv result w).2.log =
        w.log ++ [Event.call_function env recv func argc argv result,
          Event.free_context async_context] ∧
      (napi_make_callback X env async_context recv func argc argv result w).2.mem =
        free_context async_context
          (X.napi_call_function env recv func argc argv result w.mem).2 ∧
      load (napi_make_callback X env async_context recv func argc argv result
        w).2.mem.contexts async_context = none) := by
  unfold napi_make_callback
  rw [if_neg (by simp [henv])]
  by_cases hp : rtnode_napi_is_exception_pending
      (X.napi_call_function env recv func argc argv result w.mem).2 env = false
  · refine ⟨by simp [hp], ?_, ?_, ?_⟩
    · simp [hp, World.emit, World.onMem, List.count_cons]
    · intro _
      simp [hp, World.emit, World.onMem]
    · intro ht
      rw [ht] at hp
      cases hp
  · have ht : rtnode_napi_is_exception_pending
        (X.napi_call_function env recv func argc argv result w.mem).2 env = true := by
      simpa using hp
    refine ⟨by simp [ht], ?_, ?_, ?_⟩
    · simp [ht, World.emit, World.onMem, List.count_cons]
    · intro hf
      rw [hf] at ht
      cases ht
    · intro _
      refine ⟨by simp [ht, World.emit, World.onMem], by simp [ht, World.emit, World.onMem], ?_⟩
      simp only [ht, World.emit, World.onMem, free_context]
      exact load_rtnode_free _ _

/-- Witness for the amended C7: calling function `0` raises, and the live
context `1` is freed without a drain. -/
theorem napi_make_callback_accepted_env_witness :
    load contextWorld.mem.contexts 1 = some ⟨1, 10, 11⟩ ∧
    (napi_make_callback testDeps 1 1 0 0 0 [] 0 contextWorld).1.status
      = napi_pending_exception ∧
    (napi_make_callback testDeps 1 1 0 0 0 [] 0 contextWorld).2.log =
      contextWorld.log ++ [Event.call_function 1 0 0 0 [] 0, Event.free_context 1] ∧
    load (napi_make_callback testDeps 1 1 0 0 0 [] 0 contextWorld).2.mem.contexts 1 = none :=
  ⟨by decide,
    (napi_make_callback_accepted_env testDeps contextWorld 1 1 0 0 0 [] 0 (by decide)).1,
    ((napi_make_callback_accepted_env testDeps contextWorld 1 1 0 0 0 [] 0
      (by decide)).2.2.2 (by decide)).1,
    ((napi_make_callback_accepted_env testDeps contextWorld 1 1 0 0 0 [] 0
      (by decide)).2.2.2 (by decide)).2.2⟩

end NodeApiAsync
